import Mathlib

/-!
Verification development for the web-crawler repository
(src/crawler.py and src/playwright_helper.py).

The navigation engine (`run_playwright_automation` in playwright_helper.py)
and the structured-field resolution engine (`extract_custom_data_blocks`
and its helpers in crawler.py) are shallowly embedded below.  Browser and
query-engine collaborators (Playwright page operations, soupsieve CSS
matching, lxml XPath evaluation, urllib's urljoin) are modelled as oracle
functions supplied in an environment record; every operation the Python
code wraps in a try/except is given an `Except`- or `Option`-valued oracle
so that the code's exception routing can be reproduced exactly.  The
BeautifulSoup tree traversals that the code performs itself
(`find(string=...)`, `.parent`, `find_next_sibling`, `get_text`,
class-based `find`) are implemented concretely over an HTML node type.

Resource teardown (the `finally:` block of `run_playwright_automation`,
lines 277-280) is outside the model: it closes the browser session and
contains a stray reference to an undefined name `p` (the launched object
is bound to `playwright`), a uniform defect of the teardown path that is
orthogonal to the navigation results modelled here, which are the values
produced by the `return` statements of the `try`/`except` body.
-/

namespace Crawler

/-- Result of one `run_playwright_automation` invocation: the Python code
returns `{"success": True, "html_pages": [...]}` or
`{"success": False, "error": "..."}` (playwright_helper.py lines 124, 249,
273, 276). -/
inductive RunResult where
  | success (html_pages : List String)
  | failure (error : String)
deriving DecidableEq, Repr

/-- Whether the first char list occurs at the head of the second. -/
def chPref : List Char → List Char → Bool
  | [], _ => true
  | _ :: _, [] => false
  | a :: as, b :: bs => a == b && chPref as bs

/-- Whether the first char list occurs contiguously anywhere in the second. -/
def chSub (needle : List Char) : List Char → Bool
  | [] => chPref needle []
  | b :: bs => chPref needle (b :: bs) || chSub needle bs

/-- Substring test: Python's `needle in hay` on strings
(contiguous substring). -/
def hasSub (needle hay : String) : Bool :=
  chSub needle.toList hay.toList

/-- Python's `s.startswith(pre)`. -/
def strStarts (s pre : String) : Bool :=
  chPref pre.toList s.toList

/-- Python's `s[n:]` for a known `n`-character ASCII prefix. -/
def strDrop (s : String) (n : Nat) : String :=
  String.mk (s.toList.drop n)

/-- Split a char list at every char satisfying `p`, keeping empty pieces -
the grouping behaviour of Python's `str.split(sep)`. -/
def splitCharsWhen (p : Char → Bool) : List Char → List (List Char)
  | [] => [[]]
  | c :: rest =>
    match splitCharsWhen p rest with
    | [] => [[]]
    | g :: gs => if p c then [] :: g :: gs else (c :: g) :: gs

/-- Drop leading whitespace characters. -/
def dropLeadWS : List Char → List Char
  | [] => []
  | c :: rest => if c.isWhitespace then dropLeadWS rest else c :: rest

/-- Python's `str.strip()`: trim whitespace from both ends. -/
def pstrip (s : String) : String :=
  String.mk ((dropLeadWS (dropLeadWS s.toList).reverse).reverse)

/-- The Incapsula-block test of playwright_helper.py lines 135:
`"Incapsula" in current_html or "Request unsuccessful" in current_html`. -/
def containsBlockMarker (html : String) : Bool :=
  hasSub "Incapsula" html || hasSub "Request unsuccessful" html

/-- Status of the first element matching a query string, used only by the
spec-side comparison model (`specPaginationRun`). -/
inductive ControlStatus where
  | absent
  | disabledCtl
  | interactable
deriving DecidableEq, Repr

/-- The browser session as a deterministic oracle.  Each field records what
the corresponding Playwright operation returns at a given loop iteration
`i` (the code's `page_num`); `Except.error` means the operation raised.
Fields named after the program points of playwright_helper.py:
* `initOk`      - lines 93-104: `page.goto`, initial waits, `human_scroll`;
* `controlsAppear` - line 119: `wait_for_selector(".v-pagination__item")`;
* `content`     - `page.content()` at the i-th read (lines 109/123/130);
* `cards`       - line 141: `page.locator(".card.entity").all_inner_texts()`;
* `scrollOk`    - line 160: the scroll-to-bottom `page.evaluate` (unprotected);
* `findButton`  - lines 165-179: search `.v-pagination__item` items for the
  one whose text is `str(page_num + 1)`; `ok true` = a target was found;
* `clickOk`     - lines 184-216: the click (with forced-click fallback);
  `false` means even the fallback click raised;
* `poll`        - lines 225-234: re-read of the card texts at poll attempt
  `t` (0-based); `none` means the read raised (the code's `except: pass`);
* `locateControl` - oracle for an arbitrary query string, used only by the
  spec-side model;
* `listContent` - line 252: `page.content()` on the listing page;
* `collectLinks` - lines 256-261: `page.locator(detail_sel).all()` plus the
  `get_attribute("href")` sweep (each link's href may be absent);
* `visit`       - lines 264-269: URL resolution + `page.goto` + wait +
  `page.content()` for one detail href. -/
structure Browser where
  initOk : Except String Unit
  controlsAppear : Bool
  content : Nat → Except String String
  cards : Nat → Except String (List String)
  scrollOk : Nat → Except String Unit
  findButton : Nat → Except String Bool
  clickOk : Nat → Bool
  poll : Nat → Nat → Option (List String)
  locateControl : String → Nat → ControlStatus
  listContent : Except String String
  collectLinks : Option String → Except String (List (Option String))
  visit : String → Except String String

/-- The automation_config dictionary after applying the `.get` defaults the
helper uses (`type` default "single", `wait_time` default 10, `max_pages`
default 5, `max_items` default 5).  `next_selector` is carried verbatim:
crawler.py main (line 579) stores it for pagination runs. -/
structure AutomationConfig where
  type : String
  wait_time : Nat
  next_selector : Option String
  max_pages : Nat
  detail_selector : Option String
  max_items : Nat

/-- `first_card_text` of playwright_helper.py lines 140-148: the first
entry of the card texts, `""` when the read raised or the list is empty. -/
def firstCardText (env : Browser) (i : Nat) : String :=
  match env.cards i with
  | Except.error _ => ""
  | Except.ok cs => cs.headD ""

/-- The change-detection wait of lines 225-234: up to 30 poll attempts; an
attempt succeeds when the re-read card list is non-empty and its FIRST
entry differs from `first_card_text` (`new_cards[0] != first_card_text`). -/
def cardsUpdated (env : Browser) (i : Nat) : Bool :=
  (List.range 30).any fun t =>
    match env.poll i t with
    | some cs => !cs.isEmpty && !(cs.headD "" == firstCardText env i)
    | none => false

/-- The pagination loop of playwright_helper.py lines 126-246.  `fuel` is
the number of remaining `range(1, max_pages + 1)` iterations (the loop is
entered with `fuel = max_pages` and `i = 1`); exhausting the range falls
through to the success return of line 249.  Each iteration: capture the
page markup (line 130, unprotected - an exception is fatal), stop after
capturing a blocked page (lines 134-137), stop when the last permitted
page was captured (line 150), scroll to the bottom (line 160, unprotected),
search for the next page's button and click it, then wait for the cards to
update; a failed search, failed click, or absent update breaks out of the
loop (lines 217-219, 236-238, 244-246) and the captured pages are returned
as a success. -/
def pagLoop (env : Browser) (maxPages : Nat) : Nat → Nat → List String → RunResult
  | 0, _, acc => RunResult.success acc
  | Nat.succ fuel, i, acc =>
    match env.content i with
    | Except.error e => RunResult.failure e
    | Except.ok h =>
      let acc2 := acc ++ [h]
      if containsBlockMarker h then RunResult.success acc2
      else if i == maxPages then RunResult.success acc2
      else
        match env.scrollOk i with
        | Except.error e => RunResult.failure e
        | Except.ok _ =>
          match env.findButton i with
          | Except.error _ => RunResult.success acc2
          | Except.ok false => RunResult.success acc2
          | Except.ok true =>
            if env.clickOk i then
              if cardsUpdated env i then pagLoop env maxPages fuel (i + 1) acc2
              else RunResult.success acc2
            else RunResult.success acc2

/-- Turn an `Except` into an `Option`, forgetting the error. -/
def exceptToOption {ε α : Type} : Except ε α → Option α
  | Except.ok a => some a
  | Except.error _ => none

/-- `run_playwright_automation` of playwright_helper.py (lines 54-276),
restricted to its result value.  The three navigation modes dispatch on
the `type` string; an unrecognized type falls through to the success
return of line 273 with no pages captured.  For pagination, when the
pagination controls never appear the current markup is captured and
returned at once (lines 121-124).  For list_detail, the listing markup is
captured (line 252), the detail hrefs are collected (lines 256-261,
unprotected - an exception is fatal), and each href is visited inside a
per-item try whose failure skips the item (lines 263-271). -/
def run_playwright_automation (env : Browser) (cfg : AutomationConfig) : RunResult :=
  match env.initOk with
  | Except.error e => RunResult.failure e
  | Except.ok _ =>
    if cfg.type == "single" then
      match env.content 1 with
      | Except.error e => RunResult.failure e
      | Except.ok h => RunResult.success [h]
    else if cfg.type == "pagination" then
      if env.controlsAppear then
        pagLoop env cfg.max_pages cfg.max_pages 1 []
      else
        match env.content 1 with
        | Except.error e => RunResult.failure e
        | Except.ok h => RunResult.success [h]
    else if cfg.type == "list_detail" then
      match env.listContent with
      | Except.error e => RunResult.failure e
      | Except.ok h =>
        match env.collectLinks cfg.detail_selector with
        | Except.error e => RunResult.failure e
        | Except.ok links =>
          let urls := (links.take cfg.max_items).filterMap id
          RunResult.success (h :: urls.filterMap (fun u => exceptToOption (env.visit u)))
    else RunResult.success []

/-- Card texts at iteration `i` as the spec's listing content (empty when
the read raised). -/
def cardsAt (env : Browser) (i : Nat) : List String :=
  match env.cards i with
  | Except.error _ => []
  | Except.ok cs => cs

/-- Modelled from the spec: the "full item-list text" fingerprint of
spec section 9 - the concatenated text of every repeating item. -/
def fullListFingerprint (cs : List String) : String :=
  String.intercalate "\n" cs

/-- Modelled from the spec: the change-detection wait as the spec words it,
comparing the FULL item-list fingerprint against the pre-click one at each
bounded poll attempt. -/
def fullListChanged (env : Browser) (i : Nat) : Bool :=
  (List.range 30).any fun t =>
    match env.poll i t with
    | some cs => !(fullListFingerprint cs == fullListFingerprint (cardsAt env i))
    | none => false

/-- Modelled from the spec: the pagination loop as section 4.1 words it -
capture the snapshot; if this is the last permitted step stop; otherwise
locate the control matching the CONFIGURED step selector; if absent or
disabled stop terminally as a success; otherwise invoke it and run the
change-detection wait over the full item-list fingerprint, stopping
terminally when the fingerprint never changes. -/
def specPagLoop (env : Browser) (nextSel : String) (maxPages : Nat) :
    Nat → Nat → List String → RunResult
  | 0, _, acc => RunResult.success acc
  | Nat.succ fuel, i, acc =>
    match env.content i with
    | Except.error e =>
      if acc.isEmpty then RunResult.failure e else RunResult.success acc
    | Except.ok h =>
      let acc2 := acc ++ [h]
      if i == maxPages then RunResult.success acc2
      else
        match env.locateControl nextSel i with
        | ControlStatus.absent => RunResult.success acc2
        | ControlStatus.disabledCtl => RunResult.success acc2
        | ControlStatus.interactable =>
          if fullListChanged env i then specPagLoop env nextSel maxPages fuel (i + 1) acc2
          else RunResult.success acc2

/-- Modelled from the spec: a whole pagination run under the spec's
navigation contract, driven by the configured step selector. -/
def specPaginationRun (env : Browser) (nextSel : String) (maxPages : Nat) : RunResult :=
  specPagLoop env nextSel maxPages maxPages 1 []

/-- URL scheme defaulting at the top of `fetch_url_content`
(crawler.py lines 94-96): a URL that does not start with a recognized
scheme gets `https://` prepended. -/
def fetchUrlNormalize (url : String) : String :=
  if strStarts url "http://" || strStarts url "https://" then url
  else "https://" ++ url

/-! ### The structured-field resolution engine (crawler.py) -/

/-- A parsed HTML node as BeautifulSoup exposes it: either a text node
(NavigableString) or an element carrying a tag name, its CSS class list,
its other attributes, and its children in document order. -/
inductive HNode where
  | text (s : String)
  | elem (tag : String) (classes : List String) (attrs : List (String × String)) (children : List HNode)

mutual

/-- BeautifulSoup `get_text()` with the default separator: the
concatenation of all descendant text nodes in document order. -/
def getText : HNode → String
  | HNode.text s => s
  | HNode.elem _ _ _ ch => getTextList ch

/-- `get_text()` over a forest of children. -/
def getTextList : List HNode → String
  | [] => ""
  | c :: cs => getText c ++ getTextList cs

end

/-- Interleave a separator char between word groups. -/
def joinWordsWith (sepc : Char) : List (List Char) → List Char
  | [] => []
  | [w] => w
  | w :: ws => w ++ sepc :: joinWordsWith sepc ws

/-- `clean_text` of crawler.py lines 35-40: collapse every whitespace run
to a single space and trim the ends (`re.sub(r"\s+", " ", text).strip()`,
equivalently `" ".join(text.split())`). -/
def cleanText (s : String) : String :=
  String.mk (joinWordsWith ' '
    ((splitCharsWhen Char.isWhitespace s.toList).filter fun w => !w.isEmpty))

/-- `find_next_sibling(sibling_tag)` over a list of following siblings:
the first following ELEMENT sibling with the given tag, rendered through
`clean_text(sibling.get_text())` as crawler.py line 540 does. -/
def nextSiblingTagText (tag : String) : List HNode → Option String
  | [] => none
  | HNode.text _ :: rest => nextSiblingTagText tag rest
  | HNode.elem t _ _ ch :: rest =>
    if t == tag then some (cleanText (getTextList ch)) else nextSiblingTagText tag rest

mutual

/-- The heart of `_get_sibling_value_by_text_match` (crawler.py lines
527-541): a pre-order search over the children of some element `E` for the
first text node whose content contains `label`; `followers` are `E`'s own
following siblings, because a matching text node that is a DIRECT child of
`E` has `E` as its `.parent`, so the `find_next_sibling` walk runs over
`E`'s following siblings.  When the search descends into a child element,
that child's following siblings inside the current list take over the
`followers` role.  Returns `none` when no text node matches, and
`some r` (with `r` the sibling lookup's result) when one does. -/
def findLabelSibling (label tag : String) :
    List HNode → List HNode → Option (Option String)
  | [], _ => none
  | c :: rest, followers =>
    match findLabelInNode label tag c rest followers with
    | some r => some r
    | none => findLabelSibling label tag rest followers

/-- One node of the pre-order search: a matching text node resolves the
sibling walk over its parent's `followers`; an element is searched with
its own following siblings `rest` taking over the `followers` role. -/
def findLabelInNode (label tag : String) :
    HNode → List HNode → List HNode → Option (Option String)
  | HNode.text s, _, followers =>
    if !(s == "") && hasSub label s then some (nextSiblingTagText tag followers)
    else none
  | HNode.elem _ _ _ ch, rest, _ => findLabelSibling label tag ch rest

end

/-- `_get_sibling_value_by_text_match` of crawler.py lines 527-541:
find the first string node containing `label_text`, take its parent tag,
and return the cleaned text of that parent's next sibling element with tag
`sibling_tag`; `None` when either lookup fails.  `containerFollowers` are
the container's own following siblings in the document (consulted when the
matching text node is a direct child of the container). -/
def get_sibling_value_by_text_match (container : HNode) (containerFollowers : List HNode)
    (label_text sibling_tag : String) : Option String :=
  match container with
  | HNode.text _ => none
  | HNode.elem _ _ _ ch =>
    match findLabelSibling label_text sibling_tag ch containerFollowers with
    | some r => r
    | none => none

/-- Whether a class list contains a (non-empty) class with
`entity__field_header` as a substring - the first two conjuncts of the
`class_` lambda of crawler.py line 517. -/
def divHasMarkerClass (classes : List String) : Bool :=
  classes.any fun c => !(c == "") && hasSub "entity__field_header" c

/-- Whether some descendant `div` element in the forest satisfies
`divHasMarkerClass`. -/
def existsHeaderDiv : List HNode → Bool
  | [] => false
  | HNode.text _ :: rest => existsHeaderDiv rest
  | HNode.elem t cls _ ch :: rest =>
    (t == "div" && divHasMarkerClass cls) || existsHeaderDiv ch || existsHeaderDiv rest

/-- `_get_sibling_value_by_header` of crawler.py lines 511-525.  The
`class_` filter lambda is `lambda c: c and 'entity__field_header' in c and
header_text in c.text`; BeautifulSoup calls it once per individual class
STRING, so whenever the first two conjuncts hold the third evaluates
`.text` on a `str` and raises `AttributeError`, which is not caught inside
this function nor by the `except ValueError` of its caller.  Hence the
function raises as soon as some descendant `div` carries a marker class,
and otherwise the `find` yields nothing and the function returns `None`
(the `header_text`/`value_class` arguments are never reached). -/
def get_sibling_value_by_header (container : HNode) (_header_text _value_class : String) :
    Except String (Option String) :=
  match container with
  | HNode.text _ => Except.ok none
  | HNode.elem _ _ _ ch =>
    if existsHeaderDiv ch then Except.error "str object has no attribute text"
    else Except.ok none

/-- One result of an lxml XPath evaluation: an element, or a plain string
(attribute / text queries). -/
inductive XItem where
  | strI (s : String)
  | nodeI (n : HNode)

/-- One matched container element: the BeautifulSoup node itself (with its
following siblings in the document), plus the relative query engines -
soupsieve `select_one` and lxml `xpath` - as oracles.  A raised
`SelectorSyntaxError` / `XPathEvalError` is `Except.error`. -/
structure Container where
  node : HNode
  followers : List HNode
  selectOne : String → Except String (Option HNode)
  xpathQ : String → Except String (List XItem)

/-- The `Extractor` object's query surface used by
`extract_custom_data_blocks`: document-level CSS (`self.soup.select`) and
XPath (`self.tree.xpath`) container selection as oracles, whether lxml
managed to parse the markup (`self.tree is not None`), and `urljoin`
against the document's base URL. -/
structure ExtractorEnv where
  treeLoaded : Bool
  selectCSS : String → Except String (List Container)
  xpathSel : String → Except String (List Container)
  resolveUrl : String → String

/-- One field value inside a produced record: `Block Index` and
`Source Page` carry integers, everything else strings. -/
inductive FVal where
  | nat (n : Nat)
  | str (s : String)
deriving DecidableEq, Repr

/-- One produced record: a Python dict as an insertion-ordered association
list. -/
abbrev Row := List (String × FVal)

/-- Python dict item assignment: replace the value in place when the key
exists, append at the end otherwise. -/
def setFieldV : Row → String → FVal → Row
  | [], k, v => [(k, v)]
  | p :: rest, k, v => if p.1 == k then (k, v) :: rest else p :: setFieldV rest k v

/-- Python `key in dict`. -/
def rowHasKey : Row → String → Bool
  | [], _ => false
  | p :: rest, k => p.1 == k || rowHasKey rest k

/-- Python `dict.get(key)`. -/
def getField (row : Row) (k : String) : Option FVal :=
  (row.find? fun p => p.1 == k).map fun p => p.2

/-- Dropping one column from a record (pandas `drop(columns=[...])`,
a no-op when the column is absent). -/
def dropKey (row : Row) (k : String) : Row :=
  row.filter fun p => !(p.1 == k)

/-- BeautifulSoup `el.get(name, "")`. -/
def attrOf (el : HNode) (name : String) : String :=
  match el with
  | HNode.text _ => ""
  | HNode.elem _ _ attrs _ => ((attrs.find? fun p => p.1 == name).map fun p => p.2).getD ""

/-- `_get_element_value` of crawler.py lines 386-395 (`urljoin` is the
environment's `resolveUrl`; the multi-valued `class` attribute is modelled
as its stored string value, immaterial to the claims below). -/
def get_element_value (resolveUrl : String → String) (el : HNode) (attr : String) : String :=
  if attr == "text" then cleanText (getText el)
  else if attr == "href" then resolveUrl (attrOf el "href")
  else if attr == "src" then resolveUrl (attrOf el "src")
  else attrOf el attr

/-- `definition.split("|")` unpacked into exactly two names; `none` models
the `ValueError` raised for any other part count. -/
def splitPipe2 (s : String) : Option (String × String) :=
  match splitCharsWhen (fun c => c == '|') s.toList with
  | [a, b] => some (String.mk a, String.mk b)
  | _ => none

/-- A single-quote character as a string (used to build XPath literals). -/
def sq : String := String.singleton (Char.ofNat 39)

/-- The XPath query string built at crawler.py line 459 for a TEXT_MATCH
rule under the XPath dialect. -/
def buildTextMatchXPath (label tag : String) : String :=
  ".//*[contains(text(), " ++ sq ++ label ++ sq ++ ")]/following-sibling::" ++ tag ++ "[1]"

/-- The final value assignment of crawler.py lines 499-502: a resolved
string, or the `"MISSING"` sentinel when the rule produced nothing. -/
def finalAssign (row : Row) (col : String) (v : Option String) : Row :=
  match v with
  | some s => setFieldV row col (FVal.str s)
  | none => setFieldV row col (FVal.str "MISSING")

/-- The `HEADER:` branch of the field loop (crawler.py lines 433-446):
unsupported message under XPath; malformed strings (no single pipe) become
the per-field `ValueError` message; otherwise the header lookup runs, and
its `AttributeError` (see `get_sibling_value_by_header`) escapes as
`Except.error` to the outer handler. -/
def resolveHeaderRule (c : Container) (selector_type : String)
    (row : Row) (col_name rel_selector : String) : Except String Row :=
  if selector_type == "XPath" then
    Except.ok (setFieldV row col_name
      (FVal.str "HEADER: not supported with XPath containers yet"))
  else
    match splitPipe2 (strDrop rel_selector 7) with
    | none => Except.ok (setFieldV row col_name (FVal.str "ERROR: Malformed HEADER selector"))
    | some (htext, vclass) =>
      match get_sibling_value_by_header c.node (pstrip htext) (pstrip vclass) with
      | Except.error e => Except.error e
      | Except.ok v => Except.ok (finalAssign row col_name v)

/-- The `TEXT_MATCH:` branch (crawler.py lines 449-474).  Under XPath the
blanket `except Exception` of line 463 also catches the unpack
`ValueError`, so every failure there is a per-field `"XPath Error: ..."`;
under CSS a malformed string is the per-field `ValueError` message and the
BeautifulSoup lookup itself is total. -/
def resolveTextMatchRule (c : Container) (selector_type : String)
    (row : Row) (col_name rel_selector : String) : Except String Row :=
  if selector_type == "XPath" then
    match splitPipe2 (strDrop rel_selector 11) with
    | none =>
      Except.ok (setFieldV row col_name (FVal.str "XPath Error: not enough values to unpack"))
    | some (ltext, stag) =>
      match c.xpathQ (buildTextMatchXPath (pstrip ltext) (pstrip stag)) with
      | Except.error e => Except.ok (setFieldV row col_name (FVal.str ("XPath Error: " ++ e)))
      | Except.ok items =>
        match items.head? with
        | some (XItem.strI _) =>
          Except.ok (setFieldV row col_name
            (FVal.str "XPath Error: str object has no attribute text_content"))
        | some (XItem.nodeI n) => Except.ok (finalAssign row col_name (some (pstrip (getText n))))
        | none => Except.ok (finalAssign row col_name none)
  else
    match splitPipe2 (strDrop rel_selector 11) with
    | none => Except.ok (setFieldV row col_name (FVal.str "ERROR: Malformed TEXT_MATCH selector"))
    | some (ltext, stag) =>
      Except.ok (finalAssign row col_name
        (get_sibling_value_by_text_match c.node c.followers (pstrip ltext) (pstrip stag)))

/-- The plain-selector branch (crawler.py lines 477-496).  An XPath
evaluation error stores an `"XPath Error: ..."` message WITHOUT a
`continue`, so the final assignment overwrites it with `"MISSING"` (the
value is still `None`).  Under CSS, `select_one` on a malformed relative
selector raises outside any inner try (line 494), modelled as
`Except.error` escaping to the outer handler. -/
def resolveDirectRule (env : ExtractorEnv) (c : Container) (attr selector_type : String)
    (row : Row) (col_name rel_selector : String) : Except String Row :=
  if selector_type == "XPath" then
    match c.xpathQ (if strStarts rel_selector "." then rel_selector
                    else "." ++ rel_selector) with
    | Except.error e =>
      Except.ok (finalAssign (setFieldV row col_name (FVal.str ("XPath Error: " ++ e))) col_name none)
    | Except.ok items =>
      match items.head? with
      | some (XItem.strI s) => Except.ok (finalAssign row col_name (some (pstrip s)))
      | some (XItem.nodeI n) => Except.ok (finalAssign row col_name (some (pstrip (getText n))))
      | none => Except.ok (finalAssign row col_name none)
  else
    match c.selectOne rel_selector with
    | Except.error e => Except.error e
    | Except.ok none => Except.ok (finalAssign row col_name none)
    | Except.ok (some el) =>
      Except.ok (finalAssign row col_name (some (get_element_value env.resolveUrl el attr)))

/-- Resolution of ONE field rule against one container - the body of the
inner loop of `extract_custom_data_blocks` (crawler.py lines 429-502),
dispatching on the rule string's prefix.  `Except.error` reproduces an
exception that escapes to the outer handler of line 508. -/
def resolveField (env : ExtractorEnv) (c : Container) (attr selector_type : String)
    (row : Row) (col_name rel_selector : String) : Except String Row :=
  if strStarts rel_selector "HEADER:" then
    resolveHeaderRule c selector_type row col_name rel_selector
  else if strStarts rel_selector "TEXT_MATCH:" then
    resolveTextMatchRule c selector_type row col_name rel_selector
  else
    resolveDirectRule env c attr selector_type row col_name rel_selector

/-- The inner field loop over the declared rule map, in declaration
order, threading the row being built. -/
def resolveFields (env : ExtractorEnv) (c : Container) (attr selector_type : String) :
    List (String × String) → Row → Except String Row
  | [], row => Except.ok row
  | (f, r) :: rest, row =>
    Except.bind (resolveField env c attr selector_type row f r) fun row2 =>
      resolveFields env c attr selector_type rest row2

/-- The outer container loop (`for i, container in
enumerate(container_elements)`), each row seeded with its 1-based
`Block Index`. -/
def resolveAll (env : ExtractorEnv) (attr selector_type : String)
    (rmap : List (String × String)) : List Container → Nat → Except String (List Row)
  | [], _ => Except.ok []
  | c :: rest, i =>
    Except.bind (resolveFields env c attr selector_type rmap [("Block Index", FVal.nat (i + 1))])
      fun row =>
        Except.bind (resolveAll env attr selector_type rmap rest (i + 1)) fun rows =>
          Except.ok (row :: rows)

/-- What `extract_custom_data_blocks` returns: either its normal row list,
or the single-record error list `[{"Error": msg}]` it produces on JSON
decode failure, container-selection failure, zero matched containers, or
an exception reaching the outer handler of line 508. -/
inductive ExtractResult where
  | err (msg : String)
  | rows (rs : List Row)
deriving Repr, DecidableEq

/-- Container iteration once the containers are selected (crawler.py
lines 421-509): zero containers is its own error record; an exception
escaping the field loops becomes the outer handler's error record. -/
def extractFromContainers (env : ExtractorEnv) (container_selector : String)
    (rmap : List (String × String)) (attr selector_type : String)
    (cs : List Container) : ExtractResult :=
  if cs.isEmpty then ExtractResult.err ("No container elements matched: " ++ container_selector)
  else
    match resolveAll env attr selector_type rmap cs 0 with
    | Except.error e => ExtractResult.err ("Extraction failed: " ++ e)
    | Except.ok rows => ExtractResult.rows rows

/-- Container selection and extraction for an already-decoded rule map
(crawler.py lines 410-509): under the XPath dialect an unparsed tree or an
invalid container XPath yield their own error records (lines 411-417),
while a CSS container selection error (line 419, soupsieve raising on a
malformed selector) escapes to the outer handler. -/
def extract_with_rules (env : ExtractorEnv) (container_selector : String)
    (rmap : List (String × String)) (attr selector_type : String) : ExtractResult :=
  if selector_type == "XPath" then
    if !env.treeLoaded then ExtractResult.err "XPath not supported (lxml failed to load)."
    else
      match env.xpathSel container_selector with
      | Except.error e => ExtractResult.err ("Invalid XPath: " ++ e)
      | Except.ok cs => extractFromContainers env container_selector rmap attr selector_type cs
  else
    match env.selectCSS container_selector with
    | Except.error e => ExtractResult.err ("Extraction failed: " ++ e)
    | Except.ok cs => extractFromContainers env container_selector rmap attr selector_type cs

/-- `extract_custom_data_blocks` of crawler.py lines 397-509.
`relative_map = none` models a `json.loads` failure on the rule-map JSON
(line 406). -/
def extract_custom_data_blocks (env : ExtractorEnv) (container_selector : String)
    (relative_map : Option (List (String × String))) (attr selector_type : String) :
    ExtractResult :=
  match relative_map with
  | none => ExtractResult.err "Invalid JSON format in Relative Selectors."
  | some rmap => extract_with_rules env container_selector rmap attr selector_type

/-! ### The aggregation layer (crawler.py main) -/

/-- The raw list the Python function hands back: error results are the
one-record list `[{"Error": msg}]`. -/
def extractToRows : ExtractResult → List Row
  | ExtractResult.err m => [[("Error", FVal.str m)]]
  | ExtractResult.rows rs => rs

/-- The `row["Source Page"] = i + 1` stamping of crawler.py lines 775-776. -/
def stampSourcePage (rows : List Row) (pageIdx : Nat) : List Row :=
  rows.map fun r => setFieldV r "Source Page" (FVal.nat (pageIdx + 1))

/-- The custom-extraction aggregation loop of crawler.py lines 765-777:
one extraction result per page, kept only when non-empty and its first
record has no "Error" key, stamped with the 1-based page number. -/
def collectCustom : List ExtractResult → Nat → List Row
  | [], _ => []
  | res :: rest, i =>
    (match extractToRows res with
     | [] => []
     | r0 :: rs => if rowHasKey r0 "Error" then [] else stampSourcePage (r0 :: rs) i)
    ++ collectCustom rest (i + 1)

/-- The Custom_Extraction dataset of crawler.py lines 782-792: the
collected rows with the helper columns dropped.  No deduplication is
applied on this path. -/
def buildCustomDataset (results : List ExtractResult) : List Row :=
  (collectCustom results 0).map fun r => dropKey (dropKey r "Block Index") "Container Selector Used"

/-- pandas `drop_duplicates`: keep the first occurrence of each distinct
row, preserving order. -/
def dropDupsAux : List Row → List Row → List Row
  | [], _ => []
  | r :: rest, seen =>
    if r ∈ seen then dropDupsAux rest seen else r :: dropDupsAux rest (r :: seen)

/-- pandas `DataFrame(all_data).drop_duplicates()` on uniform-shape rows. -/
def dropDuplicatesRows (rows : List Row) : List Row := dropDupsAux rows []

/-- `aggregate_data` of crawler.py lines 675-683: extend the per-document
record lists into one list, deduplicate by full-row equality (empty input
gives an empty frame).  These records carry no provenance column. -/
def aggregate_data (perDocument : List (List Row)) : List Row :=
  if perDocument.flatten.isEmpty then [] else dropDuplicatesRows perDocument.flatten

/-! ### Concrete browser sessions and documents used to evaluate the claims -/

/-- A benign browser session: every operation succeeds, no pagination
controls, no detail links. -/
def envBase : Browser :=
  { initOk := Except.ok ()
    controlsAppear := false
    content := fun i => if i == 1 then Except.ok "page1" else Except.ok "page2"
    cards := fun _ => Except.ok ["A"]
    scrollOk := fun _ => Except.ok ()
    findButton := fun _ => Except.ok false
    clickOk := fun _ => true
    poll := fun _ _ => some ["B"]
    locateControl := fun _ _ => ControlStatus.absent
    listContent := Except.ok "listing"
    collectLinks := fun _ => Except.ok []
    visit := fun _ => Except.error "visit failed" }

/-- A two-page pagination config whose configured next-button selector is
`".next"`. -/
def cfgPag2 : AutomationConfig :=
  { type := "pagination", wait_time := 10, next_selector := some ".next"
    max_pages := 2, detail_selector := none, max_items := 5 }

/-- Session for claim C1: an interactable control matches the configured
selector `".next"` on every page and clicking advances the listing, but no
`.v-pagination__item` element ever appears. -/
def envC1 : Browser :=
  { envBase with
    locateControl := fun s _ => if s == ".next" then ControlStatus.interactable
                                else ControlStatus.absent }

/-- Session for claim C1's amended statement and witness: pagination
controls appear but the page-2 button is not found. -/
def envC1w : Browser :=
  { envBase with controlsAppear := true }

/-- Session for claim C2's counterexample: the initial load and the
listing capture succeed, then collecting the detail links raises. -/
def envC2 : Browser :=
  { envBase with collectLinks := fun _ => Except.error "locator resolution failed" }

/-- A list_detail config. -/
def cfgDetail : AutomationConfig :=
  { type := "list_detail", wait_time := 10, next_selector := none
    max_pages := 5, detail_selector := some ".item", max_items := 5 }

/-- Session for claim C2's witness: one good detail link and one whose
visit fails. -/
def envC2w : Browser :=
  { envBase with
    collectLinks := fun _ => Except.ok [some "u1", some "u2"]
    visit := fun u => if u == "u1" then Except.ok "detail1" else Except.error "goto failed" }

/-- Session for claim C5: after the click the card list goes from
`["A", "B"]` to `["A", "C"]` on every poll - the full item-list text
changes but the FIRST card's text does not. -/
def envC5 : Browser :=
  { envBase with
    controlsAppear := true
    cards := fun i => if i == 1 then Except.ok ["A", "B"] else Except.ok []
    findButton := fun i => if i == 1 then Except.ok true else Except.ok false
    poll := fun _ _ => some ["A", "C"]
    locateControl := fun s _ => if s == ".next" then ControlStatus.interactable
                                else ControlStatus.absent }

/-- Session for claim C5's witness: the button is found and clicked but
every poll read raises (`except: pass`), so no update is ever observed. -/
def envC5w : Browser :=
  { envBase with
    controlsAppear := true
    findButton := fun i => if i == 1 then Except.ok true else Except.ok false
    poll := fun _ _ => none }

/-- Session for claim C7's witness: controls appear, the button is found,
but polling never observes a change. -/
def envC7w : Browser :=
  { envBase with
    controlsAppear := true
    findButton := fun _ => Except.ok true
    poll := fun _ _ => none }

/-- Session for claim C10's witness: page 1 is clean, every click
advances, and page 2's markup contains the Incapsula block marker. -/
def envC10w : Browser :=
  { envBase with
    controlsAppear := true
    content := fun i => if i == 1 then Except.ok "ok1" else Except.ok "bad Incapsula page"
    findButton := fun _ => Except.ok true }

/-- A three-page pagination config. -/
def cfgPag3 : AutomationConfig :=
  { cfgPag2 with max_pages := 3 }

/-- A container whose relative query `".x"` resolves to a span with text
`"A"`. -/
def contA : Container :=
  { node := HNode.elem "div" [] [] [HNode.elem "span" [] [] [HNode.text "A"]]
    followers := []
    selectOne := fun s => if s == ".x" then Except.ok (some (HNode.elem "span" [] [] [HNode.text "A"]))
                          else Except.ok none
    xpathQ := fun _ => Except.ok [] }

/-- Document for claim C6: the container selector `".card"` matches two
structurally identical blocks on the same page. -/
def extC6 : ExtractorEnv :=
  { treeLoaded := true
    selectCSS := fun s => if s == ".card" then Except.ok [contA, contA] else Except.ok []
    xpathSel := fun _ => Except.ok []
    resolveUrl := id }

/-- A container whose query engine raises a `SelectorSyntaxError` for any
relative selector other than `".ok"`. -/
def contBad : Container :=
  { node := HNode.elem "div" [] [] []
    followers := []
    selectOne := fun s => if s == ".ok" then Except.ok (some (HNode.elem "span" [] [] [HNode.text "ok"]))
                          else Except.error "Malformed CSS selector div["
    xpathQ := fun _ => Except.ok [] }

/-- Document for claim C3's counterexample: one container matched, and the
rule map's first field uses the malformed relative CSS selector `"div["`. -/
def extC3 : ExtractorEnv :=
  { treeLoaded := true
    selectCSS := fun s => if s == ".card" then Except.ok [contBad] else Except.ok []
    xpathSel := fun _ => Except.ok []
    resolveUrl := id }

/-- The rule map of claim C3's amended statement: a malformed `HEADER:`
rule (no pipe) next to a well-formed `TEXT_MATCH:` rule. -/
def rmapC3 : List (String × String) :=
  [("A", "HEADER:onlylabel"), ("B", "TEXT_MATCH:Founded:|span")]

/-- The container markup of claim C4's scenario:
a block containing `<p>Founded: <span>2019</span></p>` - the span is a
CHILD of the text node's parent `<p>`, not a sibling of it. -/
def cFoundedNested : HNode :=
  HNode.elem "div" [] []
    [HNode.elem "p" [] [] [HNode.text "Founded: ", HNode.elem "span" [] [] [HNode.text "2019"]]]

/-- The sibling-layout variant that the text-match strategy actually
serves: `<p>Founded:</p><span>2019</span>` inside the container. -/
def cFoundedSibling : HNode :=
  HNode.elem "div" [] []
    [HNode.elem "p" [] [] [HNode.text "Founded:"], HNode.elem "span" [] [] [HNode.text "2019"]]

/-- Wrap a plain node as a matched container with inert query oracles. -/
def plainContainer (n : HNode) : Container :=
  { node := n, followers := [], selectOne := fun _ => Except.ok none
    xpathQ := fun _ => Except.ok [] }

/-- Document for claim C4: the container selector `".startup"` matches the
nested `Founded:` block. -/
def extC4 : ExtractorEnv :=
  { treeLoaded := true
    selectCSS := fun s => if s == ".startup" then Except.ok [plainContainer cFoundedNested]
                          else Except.ok []
    xpathSel := fun _ => Except.ok []
    resolveUrl := id }

/-- Document for claim C4's amended statement: the same rule against the
sibling layout. -/
def extC4s : ExtractorEnv :=
  { treeLoaded := true
    selectCSS := fun s => if s == ".startup" then Except.ok [plainContainer cFoundedSibling]
                          else Except.ok []
    xpathSel := fun _ => Except.ok []
    resolveUrl := id }

/-- Document for the witnesses of claims C3 and C8: one container. -/
def extW1 : ExtractorEnv :=
  { treeLoaded := true
    selectCSS := fun s => if s == ".c" then Except.ok [contA] else Except.ok []
    xpathSel := fun _ => Except.ok []
    resolveUrl := id }

/-! ### Lemmas about record fields -/

theorem rowHasKey_setFieldV_self (row : Row) (k : String) (v : FVal) :
    rowHasKey (setFieldV row k v) k = true := by
  induction row with
  | nil => simp [setFieldV, rowHasKey]
  | cons p rest ih =>
    cases hb : (p.1 == k) with
    | true => simp [setFieldV, hb, rowHasKey]
    | false => simp [setFieldV, hb, rowHasKey, ih]

theorem rowHasKey_setFieldV_of (row : Row) (k : String) (v : FVal) (k' : String)
    (h : rowHasKey row k' = true) :
    rowHasKey (setFieldV row k v) k' = true := by
  induction row with
  | nil => simp [rowHasKey] at h
  | cons p rest ih =>
    simp only [rowHasKey, Bool.or_eq_true] at h
    cases hb : (p.1 == k) with
    | true =>
      simp only [setFieldV, hb, if_pos rfl, rowHasKey, Bool.or_eq_true]
      rcases h with h | h
      · left
        have h1 : p.1 = k := eq_of_beq hb
        have h2 : p.1 = k' := eq_of_beq h
        rw [← h1, h2]
        exact beq_self_eq_true k'
      · right; exact h
    | false =>
      have hne : ¬ ((p.1 == k) = true) := by simp [hb]
      simp only [setFieldV]
      rw [if_neg hne]
      simp only [rowHasKey, Bool.or_eq_true]
      rcases h with h | h
      · left; exact h
      · right; exact ih h

theorem keys_after_set (row : Row) (f : String) (v : FVal) :
    rowHasKey (setFieldV row f v) f = true ∧
      ∀ k, rowHasKey row k = true → rowHasKey (setFieldV row f v) k = true :=
  ⟨rowHasKey_setFieldV_self row f v, fun k hk => rowHasKey_setFieldV_of row f v k hk⟩

theorem keys_after_finalAssign (row : Row) (f : String) (v : Option String) :
    rowHasKey (finalAssign row f v) f = true ∧
      ∀ k, rowHasKey row k = true → rowHasKey (finalAssign row f v) k = true := by
  cases v with
  | some s => exact keys_after_set row f (FVal.str s)
  | none => exact keys_after_set row f (FVal.str "MISSING")

theorem keys_after_finalAssign_set (row : Row) (f : String) (v : FVal) (w : Option String) :
    rowHasKey (finalAssign (setFieldV row f v) f w) f = true ∧
      ∀ k, rowHasKey row k = true →
        rowHasKey (finalAssign (setFieldV row f v) f w) k = true := by
  refine ⟨(keys_after_finalAssign (setFieldV row f v) f w).1, fun k hk => ?_⟩
  exact (keys_after_finalAssign (setFieldV row f v) f w).2 k
    (rowHasKey_setFieldV_of row f v k hk)

theorem resolveHeaderRule_keys (c : Container) (styp : String)
    (row : Row) (f r : String) (row' : Row)
    (h : resolveHeaderRule c styp row f r = Except.ok row') :
    rowHasKey row' f = true ∧ ∀ k, rowHasKey row k = true → rowHasKey row' k = true := by
  unfold resolveHeaderRule at h
  repeat' split at h
  all_goals
    first
      | exact Except.noConfusion h
      | (injection h with h2; subst h2;
         first
           | exact keys_after_set _ _ _
           | exact keys_after_finalAssign _ _ _
           | exact keys_after_finalAssign_set _ _ _ _)

theorem resolveTextMatchRule_keys (c : Container) (styp : String)
    (row : Row) (f r : String) (row' : Row)
    (h : resolveTextMatchRule c styp row f r = Except.ok row') :
    rowHasKey row' f = true ∧ ∀ k, rowHasKey row k = true → rowHasKey row' k = true := by
  unfold resolveTextMatchRule at h
  repeat' split at h
  all_goals
    first
      | exact Except.noConfusion h
      | (injection h with h2; subst h2;
         first
           | exact keys_after_set _ _ _
           | exact keys_after_finalAssign _ _ _
           | exact keys_after_finalAssign_set _ _ _ _)

theorem resolveDirectRule_keys (env : ExtractorEnv) (c : Container) (attr styp : String)
    (row : Row) (f r : String) (row' : Row)
    (h : resolveDirectRule env c attr styp row f r = Except.ok row') :
    rowHasKey row' f = true ∧ ∀ k, rowHasKey row k = true → rowHasKey row' k = true := by
  unfold resolveDirectRule at h
  repeat' split at h
  all_goals
    first
      | exact Except.noConfusion h
      | (injection h with h2; subst h2;
         first
           | exact keys_after_set _ _ _
           | exact keys_after_finalAssign _ _ _
           | exact keys_after_finalAssign_set _ _ _ _)

theorem resolveField_keys (env : ExtractorEnv) (c : Container) (attr styp : String)
    (row : Row) (f r : String) (row' : Row)
    (h : resolveField env c attr styp row f r = Except.ok row') :
    rowHasKey row' f = true ∧ ∀ k, rowHasKey row k = true → rowHasKey row' k = true := by
  unfold resolveField at h
  repeat' split at h
  · exact resolveHeaderRule_keys c styp row f r row' h
  · exact resolveTextMatchRule_keys c styp row f r row' h
  · exact resolveDirectRule_keys env c attr styp row f r row' h

theorem exbind_ok {ε α β : Type} (a : α) (f : α → Except ε β) :
    Except.bind (Except.ok a) f = f a := rfl

theorem exbind_error {ε α β : Type} (e : ε) (f : α → Except ε β) :
    Except.bind (Except.error e : Except ε α) f = Except.error e := rfl

theorem resolveFields_keys (env : ExtractorEnv) (c : Container) (attr styp : String) :
    ∀ (rmap : List (String × String)) (row row' : Row),
      resolveFields env c attr styp rmap row = Except.ok row' →
      (∀ k, rowHasKey row k = true → rowHasKey row' k = true) ∧
        ∀ p ∈ rmap, rowHasKey row' p.1 = true := by
  intro rmap
  induction rmap with
  | nil =>
    intro row row' h
    unfold resolveFields at h
    injection h with h2
    subst h2
    exact ⟨fun k hk => hk, by simp⟩
  | cons pr rest ih =>
    intro row row' h
    cases pr with
    | mk f r =>
      unfold resolveFields at h
      cases hf : resolveField env c attr styp row f r with
      | error e => rw [hf, exbind_error] at h; cases h
      | ok row2 =>
        rw [hf, exbind_ok] at h
        have hkeys := resolveField_keys env c attr styp row f r row2 hf
        have hrest := ih row2 row' h
        refine ⟨fun k hk => hrest.1 k (hkeys.2 k hk), fun p hp => ?_⟩
        rcases List.mem_cons.mp hp with hp | hp
        · subst hp; exact hrest.1 f hkeys.1
        · exact hrest.2 p hp

theorem resolveAll_keys (env : ExtractorEnv) (attr styp : String)
    (rmap : List (String × String)) :
    ∀ (cs : List Container) (i : Nat) (rows : List Row),
      resolveAll env attr styp rmap cs i = Except.ok rows →
      ∀ row ∈ rows, ∀ p ∈ rmap, rowHasKey row p.1 = true := by
  intro cs
  induction cs with
  | nil =>
    intro i rows h
    unfold resolveAll at h
    injection h with h2
    subst h2
    simp
  | cons c rest ih =>
    intro i rows h
    unfold resolveAll at h
    cases hf : resolveFields env c attr styp rmap [("Block Index", FVal.nat (i + 1))] with
    | error e => rw [hf, exbind_error] at h; cases h
    | ok row1 =>
      rw [hf, exbind_ok] at h
      cases hr : resolveAll env attr styp rmap rest (i + 1) with
      | error e => rw [hr, exbind_error] at h; cases h
      | ok rows2 =>
        rw [hr, exbind_ok] at h
        injection h with h2
        subst h2
        intro rw2 hmem p hp
        rcases List.mem_cons.mp hmem with hm | hm
        · rw [hm]
          exact (resolveFields_keys env c attr styp rmap _ row1 hf).2 p hp
        · exact ih (i + 1) rows2 hr rw2 hm p hp

/-! ### Lemmas about the pagination loop -/

theorem pagTermProps (f : Nat) (acc : List String) (x : String) (P : Prop) :
    (acc ++ [x]).length ≤ acc.length + (f + 1) ∧
      acc.length ≤ (acc ++ [x]).length ∧
      (0 < f + 1 → acc.length + 1 ≤ (acc ++ [x]).length) ∧
      (P → (acc ++ [x]).length ≤ acc.length + 1) ∧
      ((∀ y ∈ acc, containsBlockMarker y = false) →
        ∀ y ∈ (acc ++ [x]).dropLast, containsBlockMarker y = false) := by
  have hdl : (acc ++ [x]).dropLast = acc := by simp
  refine ⟨by simp, by simp, fun _ => by simp, fun _ => by simp, fun hacc y hy => ?_⟩
  rw [hdl] at hy
  exact hacc y hy

theorem pagLoop_success_props (env : Browser) (maxPages : Nat) :
    ∀ (fuel i : Nat) (acc pages : List String),
      pagLoop env maxPages fuel i acc = RunResult.success pages →
      pages.length ≤ acc.length + fuel ∧
        acc.length ≤ pages.length ∧
        (0 < fuel → acc.length + 1 ≤ pages.length) ∧
        ((∀ j, cardsUpdated env j = false) → pages.length ≤ acc.length + 1) ∧
        ((∀ y ∈ acc, containsBlockMarker y = false) →
          ∀ y ∈ pages.dropLast, containsBlockMarker y = false) := by
  intro fuel
  induction fuel with
  | zero =>
    intro i acc pages h
    unfold pagLoop at h
    injection h with h2
    subst h2
    refine ⟨by simp, le_refl _, fun h0 => absurd h0 (by omega), fun _ => by omega,
      fun hacc y hy => hacc y ?_⟩
    exact (List.dropLast_sublist acc).subset hy
  | succ f ih =>
    intro i acc pages h
    unfold pagLoop at h
    cases hc : env.content i with
    | error e => simp only [hc] at h; exact RunResult.noConfusion h
    | ok x =>
      simp only [hc] at h
      by_cases hb : containsBlockMarker x = true
      · rw [if_pos hb] at h
        injection h with h2
        subst h2
        exact pagTermProps f acc x _
      · rw [if_neg hb] at h
        by_cases hm : (i == maxPages) = true
        · rw [if_pos hm] at h
          injection h with h2
          subst h2
          exact pagTermProps f acc x _
        · rw [if_neg hm] at h
          cases hs : env.scrollOk i with
          | error e => simp only [hs] at h; exact RunResult.noConfusion h
          | ok u =>
            simp only [hs] at h
            cases hfb : env.findButton i with
            | error e =>
              simp only [hfb] at h
              injection h with h2
              subst h2
              exact pagTermProps f acc x _
            | ok b =>
              simp only [hfb] at h
              cases b with
              | false =>
                injection h with h2
                subst h2
                exact pagTermProps f acc x _
              | true =>
                by_cases hck : env.clickOk i = true
                · rw [if_pos hck] at h
                  by_cases hcu : cardsUpdated env i = true
                  · rw [if_pos hcu] at h
                    have hrec := ih (i + 1) (acc ++ [x]) pages h
                    have hlen : (acc ++ [x]).length = acc.length + 1 := by simp
                    refine ⟨?_, ?_, fun _ => ?_, fun hnc => ?_, fun hacc => ?_⟩
                    · have := hrec.1; omega
                    · have := hrec.2.1; omega
                    · have := hrec.2.1; omega
                    · exact absurd hcu (by simp [hnc])
                    · apply hrec.2.2.2.2
                      intro y hy
                      rcases List.mem_append.mp hy with hy | hy
                      · exact hacc y hy
                      · rcases List.mem_singleton.mp hy with rfl
                        cases hcb : containsBlockMarker y with
                        | false => rfl
                        | true => exact absurd hcb hb
                  · rw [if_neg hcu] at h
                    injection h with h2
                    subst h2
                    exact pagTermProps f acc x _
                · rw [if_neg hck] at h
                  injection h with h2
                  subst h2
                  exact pagTermProps f acc x _

theorem pagLoop_graceful (env : Browser) (maxPages : Nat)
    (hC : ∀ j, ∃ y, env.content j = Except.ok y)
    (hS : ∀ j, env.scrollOk j = Except.ok ()) :
    ∀ (fuel i : Nat) (acc : List String),
      ∃ pages, pagLoop env maxPages fuel i acc = RunResult.success pages := by
  intro fuel
  induction fuel with
  | zero => intro i acc; exact ⟨acc, rfl⟩
  | succ f ih =>
    intro i acc
    obtain ⟨y, hy⟩ := hC i
    unfold pagLoop
    simp only [hy, hS i]
    by_cases hb : containsBlockMarker y = true
    · rw [if_pos hb]; exact ⟨_, rfl⟩
    · rw [if_neg hb]
      by_cases hm : (i == maxPages) = true
      · rw [if_pos hm]; exact ⟨_, rfl⟩
      · rw [if_neg hm]
        cases hfb : env.findButton i with
        | error e => exact ⟨_, rfl⟩
        | ok b =>
          cases b with
          | false => exact ⟨_, rfl⟩
          | true =>
            by_cases hck : env.clickOk i = true
            · rw [if_pos hck]
              by_cases hcu : cardsUpdated env i = true
              · rw [if_pos hcu]; exact ih (i + 1) (acc ++ [y])
              · rw [if_neg hcu]; exact ⟨_, rfl⟩
            · rw [if_neg hck]; exact ⟨_, rfl⟩

theorem run_pagination_success (env : Browser) (cfg : AutomationConfig) (pages : List String)
    (ht : cfg.type = "pagination")
    (h : run_playwright_automation env cfg = RunResult.success pages) :
    (env.controlsAppear = false ∧ ∃ x, env.content 1 = Except.ok x ∧ pages = [x]) ∨
      (env.controlsAppear = true ∧
        pagLoop env cfg.max_pages cfg.max_pages 1 [] = RunResult.success pages) := by
  unfold run_playwright_automation at h
  cases hi : env.initOk with
  | error e => simp only [hi] at h; exact RunResult.noConfusion h
  | ok u =>
    simp only [hi, ht] at h
    have e1 : ¬ ((("pagination" : String) == "single") = true) := by decide
    have e2 : (("pagination" : String) == "pagination") = true := by decide
    rw [if_neg e1, if_pos e2] at h
    cases hca : env.controlsAppear with
    | true =>
      rw [if_pos (by rw [hca])] at h
      exact Or.inr ⟨rfl, h⟩
    | false =>
      rw [if_neg (by rw [hca]; exact Bool.false_ne_true)] at h
      cases hc : env.content 1 with
      | error e => simp only [hc] at h; exact RunResult.noConfusion h
      | ok x =>
        simp only [hc] at h
        injection h with h2
        exact Or.inl ⟨rfl, x, rfl, h2.symm⟩

theorem run_pagination_eq_loop (env : Browser) (cfg : AutomationConfig)
    (ht : cfg.type = "pagination") (hInit : env.initOk = Except.ok ())
    (hca : env.controlsAppear = true) :
    run_playwright_automation env cfg = pagLoop env cfg.max_pages cfg.max_pages 1 [] := by
  unfold run_playwright_automation
  rw [ht]
  have e1 : ¬ ((("pagination" : String) == "single") = true) := by decide
  have e2 : (("pagination" : String) == "pagination") = true := by decide
  simp only [hInit, if_neg e1, if_pos e2]
  rw [if_pos (by rw [hca])]

theorem pagLoop_step1 (env : Browser) (N g : Nat) (x : String) (hgN : N = g + 1)
    (hc : env.content 1 = Except.ok x) (hb : containsBlockMarker x = false)
    (hone : ¬ (((1 : Nat) == N) = true)) (hs : env.scrollOk 1 = Except.ok ()) :
    pagLoop env N N 1 [] =
      match env.findButton 1 with
      | Except.error _ => RunResult.success [x]
      | Except.ok false => RunResult.success [x]
      | Except.ok true =>
        if env.clickOk 1 then
          if cardsUpdated env 1 then pagLoop env N g 2 [x]
          else RunResult.success [x]
        else RunResult.success [x] := by
  rw [hgN] at hone ⊢
  conv_lhs => unfold pagLoop
  simp only [hc]
  rw [if_neg (by simp [hb]), if_neg hone]
  simp only [hs]
  rfl

theorem extractFromContainers_keys (env : ExtractorEnv) (sel : String)
    (rmap : List (String × String)) (attr styp : String) (cs : List Container)
    (rows : List Row)
    (h : extractFromContainers env sel rmap attr styp cs = ExtractResult.rows rows) :
    ∀ row ∈ rows, ∀ p ∈ rmap, rowHasKey row p.1 = true := by
  unfold extractFromContainers at h
  by_cases he : cs.isEmpty = true
  · rw [if_pos he] at h; exact ExtractResult.noConfusion h
  · rw [if_neg he] at h
    cases hr : resolveAll env attr styp rmap cs 0 with
    | error e => simp only [hr] at h; exact ExtractResult.noConfusion h
    | ok rows2 =>
      simp only [hr] at h
      injection h with h2
      subst h2
      exact resolveAll_keys env attr styp rmap cs 0 _ hr

theorem dropDupsAux_nodup : ∀ (l seen : List Row),
    (dropDupsAux l seen).Nodup ∧ ∀ r ∈ dropDupsAux l seen, r ∉ seen := by
  intro l
  induction l with
  | nil => intro seen; exact ⟨List.nodup_nil, by simp [dropDupsAux]⟩
  | cons r rest ih =>
    intro seen
    unfold dropDupsAux
    by_cases hm : r ∈ seen
    · rw [if_pos hm]; exact ih seen
    · rw [if_neg hm]
      obtain ⟨hnd, hns⟩ := ih (r :: seen)
      refine ⟨List.nodup_cons.mpr ⟨fun hmem => ?_, hnd⟩, fun z hz => ?_⟩
      · exact (hns r hmem) (List.mem_cons_self r seen)
      · rcases List.mem_cons.mp hz with rfl | hz
        · exact hm
        · intro hzs
          exact (hns z hz) (List.mem_cons_of_mem r hzs)

theorem resolveAll_rmapC3 (ext : ExtractorEnv) (attr : String) :
    ∀ (cs : List Container) (i : Nat),
      ∃ rows, resolveAll ext attr "CSS" rmapC3 cs i = Except.ok rows ∧
        rows.length = cs.length ∧
        ∀ row ∈ rows,
          getField row "A" = some (FVal.str "ERROR: Malformed HEADER selector") ∧
            ∃ v, getField row "B" = some v := by
  intro cs
  induction cs with
  | nil => intro i; exact ⟨[], rfl, rfl, by simp⟩
  | cons c rest ih =>
    intro i
    obtain ⟨rows2, h2, hlen, hall⟩ := ih (i + 1)
    have hfields :
        resolveFields ext c attr "CSS" rmapC3 [("Block Index", FVal.nat (i + 1))] =
          Except.ok (finalAssign
            [("Block Index", FVal.nat (i + 1)),
             ("A", FVal.str "ERROR: Malformed HEADER selector")] "B"
            (get_sibling_value_by_text_match c.node c.followers (pstrip "Founded:") (pstrip "span"))) := rfl
    refine ⟨finalAssign
        [("Block Index", FVal.nat (i + 1)),
         ("A", FVal.str "ERROR: Malformed HEADER selector")] "B"
        (get_sibling_value_by_text_match c.node c.followers (pstrip "Founded:")
          (pstrip "span")) :: rows2, ?_, by simp [hlen], ?_⟩
    · unfold resolveAll
      rw [hfields, exbind_ok, h2, exbind_ok]
    · intro row hrow
      rcases List.mem_cons.mp hrow with hr | hr
      · subst hr
        constructor
        · cases hm : get_sibling_value_by_text_match c.node c.followers (pstrip "Founded:") (pstrip "span") with
          | none => simp only [finalAssign, hm]; rfl
          | some s => simp only [finalAssign, hm]; rfl
        · cases hm : get_sibling_value_by_text_match c.node c.followers (pstrip "Founded:") (pstrip "span") with
          | none => exact ⟨FVal.str "MISSING", by simp only [finalAssign, hm]; rfl⟩
          | some s => exact ⟨FVal.str s, by simp only [finalAssign, hm]; rfl⟩
      · exact hall row hr

/-! ### Claim C1 -/

/-- C1 counterexample: a session in which an interactable control matches
the CONFIGURED next-page selector `".next"` on every page and clicking
advances the full listing, while no `.v-pagination__item` element ever
appears.  The claim predicts the engine locates the control via the
configured selector and advances (as the spec-side model does, reaching 2
snapshots); the code instead stops after a single snapshot because its
control lookup is hard-coded to `.v-pagination__item`, which crawler.py's
`next_selector` never reaches (playwright_helper.py never reads
`next_selector`). -/
theorem c1_counterexample :
    cfgPag2.next_selector = some ".next" ∧
      envC1.locateControl ".next" 1 = ControlStatus.interactable ∧
      run_playwright_automation envC1 cfgPag2 = RunResult.success ["page1"] ∧
      specPaginationRun envC1 ".next" cfgPag2.max_pages =
        RunResult.success ["page1", "page2"] :=
  ⟨rfl, by decide, by decide, by decide⟩

/-- C1 (amended): the pagination engine's next-step control lookup ignores
the configured `next_selector` entirely - the run's result is invariant
under changing it - and it searches the hard-coded `.v-pagination__item`
items instead; when that hard-coded lookup finds no button, the run stops
terminally, returning the snapshots captured so far as a success. -/
theorem c1_next_selector_ignored :
    (∀ (env : Browser) (cfg : AutomationConfig) (s : Option String),
      run_playwright_automation env { cfg with next_selector := s } =
        run_playwright_automation env cfg) ∧
    (∀ (env : Browser) (cfg : AutomationConfig) (x : String),
      cfg.type = "pagination" → env.initOk = Except.ok () →
      env.controlsAppear = true → env.content 1 = Except.ok x →
      containsBlockMarker x = false → 2 ≤ cfg.max_pages →
      env.scrollOk 1 = Except.ok () → env.findButton 1 = Except.ok false →
      run_playwright_automation env cfg = RunResult.success [x]) := by
  constructor
  · intro env cfg s
    cases cfg
    rfl
  · intro env cfg x ht hInit hca hc hb hN hs hfb
    obtain ⟨f, hf⟩ : ∃ f, cfg.max_pages = f + 1 := ⟨cfg.max_pages - 1, by omega⟩
    rw [run_pagination_eq_loop env cfg ht hInit hca,
      pagLoop_step1 env cfg.max_pages f x hf hc hb (by simp only [beq_iff_eq]; omega) hs]
    simp only [hfb]

/-- C1 witness: the amended statement applied to a concrete session whose
pagination items contain no next-page button. -/
theorem c1_witness :
    run_playwright_automation envC1w cfgPag2 = RunResult.success ["page1"] ∧
      run_playwright_automation envC1w { cfgPag2 with next_selector := some ".other" } =
        run_playwright_automation envC1w cfgPag2 :=
  ⟨c1_next_selector_ignored.2 envC1w cfgPag2 "page1" rfl rfl rfl rfl (by decide)
      (by decide) rfl rfl,
    c1_next_selector_ignored.1 envC1w cfgPag2 (some ".other")⟩

/-! ### Claim C2 -/

/-- C2 counterexample: a list_detail session whose initial load succeeds
and whose listing snapshot is captured, after which collecting the detail
links raises; the run returns a failure result carrying NO snapshots even
though the initial page load succeeded and a snapshot had been captured -
refuting both halves of the claim. -/
theorem c2_counterexample :
    envC2.initOk = Except.ok () ∧ envC2.listContent = Except.ok "listing" ∧
      run_playwright_automation envC2 cfgDetail =
        RunResult.failure "locator resolution failed" :=
  ⟨rfl, rfl, by decide⟩

/-- C2 (amended): graceful degradation holds only on the protected paths.
In pagination mode, when the markup reads and the scroll evaluation never
raise, the run always returns a success - button-search failures, click
failures and absent updates merely stop it early; in list_detail mode,
once the listing snapshot and the link collection succeed, every
per-detail-visit failure is skipped and the listing snapshot is always
returned first.  (Failures of the unprotected operations - a markup read
after the first capture, or the link collection itself - escape to the
outer handler and discard all captured snapshots, as the counterexample
shows.) -/
theorem c2_graceful_degradation :
    (∀ (env : Browser) (cfg : AutomationConfig),
      cfg.type = "pagination" → env.initOk = Except.ok () →
      (∀ j, ∃ y, env.content j = Except.ok y) →
      (∀ j, env.scrollOk j = Except.ok ()) →
      ∃ pages, run_playwright_automation env cfg = RunResult.success pages) ∧
    (∀ (env : Browser) (cfg : AutomationConfig) (x : String)
        (links : List (Option String)),
      cfg.type = "list_detail" → env.initOk = Except.ok () →
      env.listContent = Except.ok x →
      env.collectLinks cfg.detail_selector = Except.ok links →
      ∃ rest, run_playwright_automation env cfg = RunResult.success (x :: rest)) := by
  constructor
  · intro env cfg ht hInit hC hS
    cases hca : env.controlsAppear with
    | true =>
      rw [run_pagination_eq_loop env cfg ht hInit hca]
      exact pagLoop_graceful env cfg.max_pages hC hS cfg.max_pages 1 []
    | false =>
      obtain ⟨y, hy⟩ := hC 1
      refine ⟨[y], ?_⟩
      unfold run_playwright_automation
      rw [ht]
      have e1 : ¬ ((("pagination" : String) == "single") = true) := by decide
      have e2 : (("pagination" : String) == "pagination") = true := by decide
      simp only [hInit, if_neg e1, if_pos e2]
      rw [if_neg (by rw [hca]; exact Bool.false_ne_true)]
      simp only [hy]
  · intro env cfg x links ht hInit hl hcl
    refine ⟨((links.take cfg.max_items).filterMap id).filterMap
      (fun u => exceptToOption (env.visit u)), ?_⟩
    unfold run_playwright_automation
    rw [ht]
    have e1 : ¬ ((("list_detail" : String) == "single") = true) := by decide
    have e2 : ¬ ((("list_detail" : String) == "pagination") = true) := by decide
    have e3 : (("list_detail" : String) == "list_detail") = true := by decide
    simp only [hInit, if_neg e1, if_neg e2, if_pos e3, hl, hcl]

/-- C2 witness: the amended statement applied to a pagination session that
stalls after one page, and to a list_detail session with one reachable and
one unreachable detail link. -/
theorem c2_witness :
    (∃ pages, run_playwright_automation envC7w cfgPag3 = RunResult.success pages) ∧
      ∃ rest, run_playwright_automation envC2w cfgDetail =
        RunResult.success ("listing" :: rest) :=
  ⟨c2_graceful_degradation.1 envC7w cfgPag3 rfl rfl
      (fun j => by
        by_cases hj : j = 1
        · subst hj; exact ⟨"page1", rfl⟩
        · refine ⟨"page2", ?_⟩
          show (if (j == 1) = true then Except.ok "page1" else Except.ok "page2") =
            Except.ok "page2"
          rw [if_neg (by simpa using hj)])
      (fun j => rfl),
    c2_graceful_degradation.2 envC2w cfgDetail "listing" [some "u1", some "u2"]
      rfl rfl rfl rfl⟩

/-! ### Claim C5 -/

/-- C5 counterexample: after the click the card list changes from
`["A", "B"]` to `["A", "C"]` at every poll - the full item-list
fingerprint changes within the timeout and the next page's markup is
reachable (the spec-side model captures 2 snapshots) - yet the code run
stops terminally with a single snapshot, because the code compares only
the FIRST card's text (`new_cards[0] != first_card_text`), not the full
item-list text. -/
theorem c5_counterexample :
    fullListChanged envC5 1 = true ∧
      envC5.content 2 = Except.ok "page2" ∧ cfgPag2.max_pages = 2 ∧
      run_playwright_automation envC5 cfgPag2 = RunResult.success ["page1"] ∧
      specPaginationRun envC5 ".next" 2 = RunResult.success ["page1", "page2"] :=
  ⟨by decide, rfl, rfl, by decide, by decide⟩

/-- C5 (amended): after invoking the step control the engine polls the
card texts once per second for up to 30 attempts and compares the FIRST
card's text against the pre-click first-card text; when that first-card
fingerprint never changes within the bounded attempts the run stops
terminally as a success with the snapshots captured so far, and when it
does change the loop continues into the next iteration after the settle
delay. -/
theorem c5_first_card_fingerprint (env : Browser) (cfg : AutomationConfig) (x : String)
    (ht : cfg.type = "pagination") (hInit : env.initOk = Except.ok ())
    (hca : env.controlsAppear = true) (hc : env.content 1 = Except.ok x)
    (hb : containsBlockMarker x = false) (hN : 2 ≤ cfg.max_pages)
    (hs : env.scrollOk 1 = Except.ok ()) (hfb : env.findButton 1 = Except.ok true)
    (hck : env.clickOk 1 = true) :
    (cardsUpdated env 1 = false →
      run_playwright_automation env cfg = RunResult.success [x]) ∧
    (cardsUpdated env 1 = true →
      run_playwright_automation env cfg =
        pagLoop env cfg.max_pages (cfg.max_pages - 1) 2 [x]) := by
  obtain ⟨f, hf⟩ : ∃ f, cfg.max_pages = f + 1 := ⟨cfg.max_pages - 1, by omega⟩
  have hrun := run_pagination_eq_loop env cfg ht hInit hca
  rw [pagLoop_step1 env cfg.max_pages f x hf hc hb (by simp only [beq_iff_eq]; omega) hs]
    at hrun
  simp only [hfb] at hrun
  have hf1 : cfg.max_pages - 1 = f := by omega
  constructor
  · intro hcu
    rw [hrun, if_pos (by rw [hck]), if_neg (by rw [hcu]; exact Bool.false_ne_true)]
  · intro hcu
    rw [hrun, if_pos (by rw [hck]), if_pos (by rw [hcu]), hf1]

/-- C5 witness: the amended statement applied to a session whose polls all
raise, so no first-card change is ever observed and the run returns its
single captured snapshot. -/
theorem c5_witness :
    run_playwright_automation envC5w cfgPag2 = RunResult.success ["page1"] :=
  (c5_first_card_fingerprint envC5w cfgPag2 "page1" rfl rfl rfl rfl (by decide)
      (by decide) rfl rfl rfl).1 (by decide)

/-! ### Claim C7 -/

/-- C7: every pagination run (`max_pages = N ≥ 1`) that returns a snapshot
sequence returns between 1 and N snapshots, and exactly 1 whenever no
click ever produces an observable card-fingerprint change. -/
theorem c7_pagination_bounds (env : Browser) (cfg : AutomationConfig) (pages : List String)
    (ht : cfg.type = "pagination") (hN : 1 ≤ cfg.max_pages)
    (h : run_playwright_automation env cfg = RunResult.success pages) :
    (1 ≤ pages.length ∧ pages.length ≤ cfg.max_pages) ∧
      ((∀ j, cardsUpdated env j = false) → pages.length = 1) := by
  rcases run_pagination_success env cfg pages ht h with ⟨hca, x, hx, hp⟩ | ⟨hca, hloop⟩
  · subst hp
    exact ⟨⟨by simp, by simpa using hN⟩, fun _ => by simp⟩
  · have hprops := pagLoop_success_props env cfg.max_pages cfg.max_pages 1 [] pages hloop
    have h1 := hprops.1
    have h2 := hprops.2.2.1 (by omega)
    simp only [List.length_nil] at h1 h2
    refine ⟨⟨by omega, by omega⟩, fun hnc => ?_⟩
    have h3 := hprops.2.2.2.1 hnc
    simp only [List.length_nil] at h3
    omega

/-- C7 witness: a session whose polls never observe a change returns
exactly one snapshot out of an allowed three. -/
theorem c7_witness :
    (1 ≤ (["page1"] : List String).length ∧
        (["page1"] : List String).length ≤ cfgPag3.max_pages) ∧
      ((∀ j, cardsUpdated envC7w j = false) → (["page1"] : List String).length = 1) :=
  c7_pagination_bounds envC7w cfgPag3 ["page1"] rfl (by decide) (by decide)

/-! ### Claim C10 -/

/-- C10: in a pagination run, every returned snapshot except possibly the
last is free of the block markers "Incapsula" and "Request unsuccessful" -
once a captured page contains one, no later snapshot follows it. -/
theorem c10_block_marker_terminal (env : Browser) (cfg : AutomationConfig)
    (pages : List String) (ht : cfg.type = "pagination")
    (h : run_playwright_automation env cfg = RunResult.success pages) :
    ∀ y ∈ pages.dropLast, containsBlockMarker y = false := by
  rcases run_pagination_success env cfg pages ht h with ⟨hca, x, hx, hp⟩ | ⟨hca, hloop⟩
  · subst hp; simp
  · exact (pagLoop_success_props env cfg.max_pages cfg.max_pages 1 [] pages
      hloop).2.2.2.2 (by simp)

/-- C10 witness: a run that hits an Incapsula block on page 2 returns it
as the final snapshot; the snapshot preceding it is clean. -/
theorem c10_witness : containsBlockMarker "ok1" = false :=
  c10_block_marker_terminal envC10w cfgPag3 ["ok1", "bad Incapsula page"] rfl (by decide)
    "ok1" (by decide)

/-! ### Claim C3 -/

/-- C3 counterexample: with one container matched and the rule map
`{"A": "div[", "B": ".ok"}` under the CSS dialect, the malformed relative
CSS selector `"div["` raises inside `select_one` (no inner try) and the
WHOLE extraction aborts with a single error record - field `A` is not
recorded as Missing-with-reason, field `B` of the same container is never
resolved, and no per-container records survive. -/
theorem c3_counterexample :
    extC3.selectCSS ".card" = Except.ok [contBad] ∧
      extract_custom_data_blocks extC3 ".card" (some [("A", "div["), ("B", ".ok")])
          "text" "CSS" =
        ExtractResult.err "Extraction failed: Malformed CSS selector div[" :=
  ⟨rfl, by decide⟩

/-- C3 (amended): per-field isolation holds for malformed `HEADER:` /
`TEXT_MATCH:` rule strings (missing the pipe separator) and for XPath
evaluation errors - such a failure is recorded in that field alone and
aborts neither the remaining fields of the container nor subsequent
containers; but a syntactically invalid relative CSS selector in a plain
rule is NOT isolated: it aborts the whole extraction (see the
counterexample).  Concretely, for the rule map
`{"A": "HEADER:onlylabel", "B": "TEXT_MATCH:Founded:|span"}` every matched
container still yields a record whose `A` field carries the malformed-rule
message and whose `B` field is present. -/
theorem c3_per_field_isolation (ext : ExtractorEnv) (sel attr : String)
    (cs : List Container) (hsel : ext.selectCSS sel = Except.ok cs) (hne : cs ≠ []) :
    ∃ rows, extract_custom_data_blocks ext sel (some rmapC3) attr "CSS" =
        ExtractResult.rows rows ∧
      rows.length = cs.length ∧
      ∀ row ∈ rows,
        getField row "A" = some (FVal.str "ERROR: Malformed HEADER selector") ∧
          ∃ v, getField row "B" = some v := by
  obtain ⟨rows, hall, hlen, hrows⟩ := resolveAll_rmapC3 ext attr cs 0
  refine ⟨rows, ?_, hlen, hrows⟩
  show extract_with_rules ext sel rmapC3 attr "CSS" = ExtractResult.rows rows
  unfold extract_with_rules
  have e1 : ¬ ((("CSS" : String) == "XPath") = true) := by decide
  rw [if_neg e1]
  simp only [hsel]
  unfold extractFromContainers
  rw [if_neg (by cases cs with | nil => exact absurd rfl hne | cons a l => simp), hall]

/-- C3 witness: the amended statement applied to a one-container document. -/
theorem c3_witness :
    ∃ rows, extract_custom_data_blocks extW1 ".c" (some rmapC3) "text" "CSS" =
        ExtractResult.rows rows ∧
      rows.length = ([contA] : List Container).length ∧
      ∀ row ∈ rows,
        getField row "A" = some (FVal.str "ERROR: Malformed HEADER selector") ∧
          ∃ v, getField row "B" = some v :=
  c3_per_field_isolation extW1 ".c" "text" [contA] rfl (by simp)

/-! ### Claim C4 -/

/-- C4 counterexample: resolving `TEXT_MATCH:Founded:|span` against a
container holding `<p>Founded: <span>2019</span></p>` yields the MISSING
sentinel, not "2019": the matching text node's parent is the `<p>`, and
the `<span>` is that parent's CHILD, not its next sibling, so
`find_next_sibling` finds nothing. -/
theorem c4_counterexample :
    get_sibling_value_by_text_match cFoundedNested [] "Founded:" "span" = none ∧
      extract_custom_data_blocks extC4 ".startup"
          (some [("Founded", "TEXT_MATCH:Founded:|span")]) "text" "CSS" =
        ExtractResult.rows [[("Block Index", FVal.nat 1), ("Founded", FVal.str "MISSING")]] :=
  ⟨by decide, by decide⟩

/-- C4 (amended): `TEXT_MATCH:Founded:|span` yields "2019" when the span
is the NEXT SIBLING of the matched text's parent element - e.g. the
container `<div><p>Founded:</p><span>2019</span></div>` - and yields the
MISSING sentinel for the nested markup
`<p>Founded: <span>2019</span></p>` of the claim's scenario. -/
theorem c4_sibling_semantics :
    get_sibling_value_by_text_match cFoundedSibling [] "Founded:" "span" = some "2019" ∧
      get_sibling_value_by_text_match cFoundedNested [] "Founded:" "span" = none ∧
      extract_custom_data_blocks extC4s ".startup"
          (some [("Founded", "TEXT_MATCH:Founded:|span")]) "text" "CSS" =
        ExtractResult.rows [[("Block Index", FVal.nat 1), ("Founded", FVal.str "2019")]] :=
  ⟨by decide, by decide, by decide⟩

/-! ### Claim C8 -/

/-- C8: whenever `extract_custom_data_blocks` returns its normal row list
(so at least one container matched and nothing aborted), every field name
declared in the rule map appears as a key in every produced record - the
per-field failure paths store message or sentinel values under the field's
key, never dropping it. -/
theorem c8_fields_always_present (env : ExtractorEnv) (sel : String)
    (rmap : List (String × String)) (attr styp : String) (rows : List Row)
    (h : extract_custom_data_blocks env sel (some rmap) attr styp = ExtractResult.rows rows) :
    ∀ row ∈ rows, ∀ p ∈ rmap, rowHasKey row p.1 = true := by
  replace h : extract_with_rules env sel rmap attr styp = ExtractResult.rows rows := h
  unfold extract_with_rules at h
  by_cases hx : (styp == "XPath") = true
  · rw [if_pos hx] at h
    cases htl : env.treeLoaded with
    | false => rw [if_pos (by rw [htl]; rfl)] at h; exact ExtractResult.noConfusion h
    | true =>
      rw [if_neg (by rw [htl]; exact Bool.false_ne_true)] at h
      cases hq : env.xpathSel sel with
      | error e => simp only [hq] at h; exact ExtractResult.noConfusion h
      | ok cs =>
        simp only [hq] at h
        exact extractFromContainers_keys env sel rmap attr styp cs rows h
  · rw [if_neg hx] at h
    cases hq : env.selectCSS sel with
    | error e => simp only [hq] at h; exact ExtractResult.noConfusion h
    | ok cs =>
      simp only [hq] at h
      exact extractFromContainers_keys env sel rmap attr styp cs rows h

/-- C8 witness: the field declared as "Name" is present in the record
produced for the one matched container. -/
theorem c8_witness :
    rowHasKey [("Block Index", FVal.nat 1), ("Name", FVal.str "A")] "Name" = true :=
  c8_fields_always_present extW1 ".c" [("Name", ".x")] "text" "CSS"
    [[("Block Index", FVal.nat 1), ("Name", FVal.str "A")]] (by decide)
    [("Block Index", FVal.nat 1), ("Name", FVal.str "A")] (by simp)
    ("Name", ".x") (by simp)

/-! ### Claim C6 -/

/-- C6 counterexample: a page on which the container selector matches two
blocks with identical extracted content produces a Custom_Extraction
dataset holding two FULLY identical records - same fields AND same
`Source Page` provenance - because the custom-extraction path never
deduplicates (crawler.py lines 782-792 build the frame without
`drop_duplicates`). -/
theorem c6_counterexample :
    buildCustomDataset
        [extract_custom_data_blocks extC6 ".card" (some [("Name", ".x")]) "text" "CSS"] =
      [[("Name", FVal.str "A"), ("Source Page", FVal.nat 1)],
       [("Name", FVal.str "A"), ("Source Page", FVal.nat 1)]] := by decide

/-- C6 (amended): full-row deduplication holds exactly for the datasets
built through `aggregate_data` (metadata, contacts, links, companies, ...):
no two records of such a dataset are equal - but those records carry no
provenance column at all, and the Custom_Extraction dataset, which does
carry `Source Page` provenance, is returned without deduplication (see the
counterexample). -/
theorem c6_aggregate_dedup (perDocument : List (List Row)) :
    (aggregate_data perDocument).Nodup := by
  unfold aggregate_data
  by_cases he : perDocument.flatten.isEmpty = true
  · rw [if_pos he]; exact List.nodup_nil
  · rw [if_neg he]
    exact (dropDupsAux_nodup perDocument.flatten []).1

/-! ### Claim C9 -/

/-- C9: `fetch_url_content` prepends "https://" to every input URL that
starts with neither "http://" nor "https://", and passes URLs already
carrying one of those schemes through unchanged. -/
theorem c9_scheme_default (url : String) :
    (strStarts url "http://" = false ∧ strStarts url "https://" = false →
      fetchUrlNormalize url = "https://" ++ url) ∧
    (strStarts url "http://" = true ∨ strStarts url "https://" = true →
      fetchUrlNormalize url = url) := by
  unfold fetchUrlNormalize
  constructor
  · rintro ⟨h1, h2⟩
    rw [if_neg (by simp [h1, h2])]
  · intro h
    rw [if_pos (by rcases h with h | h <;> simp [h])]

/-- C9 witness: a bare domain is requested over HTTPS; an explicit
http:// URL is left alone. -/
theorem c9_witness :
    fetchUrlNormalize "example.com" = "https://example.com" ∧
      fetchUrlNormalize "http://a.com" = "http://a.com" :=
  ⟨(c9_scheme_default "example.com").1 (by decide),
    (c9_scheme_default "http://a.com").2 (Or.inl (by decide))⟩

end Crawler
